import Mathlib

/-!
Shallow embedding of the rust-rsi attestation token model and parser
(src/token/mod.rs, src/token/parser.rs) and of the ioctl attestation-token
wrapper (src/ioctl/mod.rs).

Conventions of the embedding:
* `u32` labels become `Nat` (all labels are small constants, no overflow).
* `i64` becomes `Int` (the only constructed value is the literal 0).
* `Vec<u8>` becomes `List Nat`, `String` stays `String`.
* `HashMap<u32, Claim>` becomes an association list with HashMap insert
  semantics (replace on existing key, append otherwise); keys are unique by
  construction.
* Fallible Rust functions returning `Result<T, TokenError>` become
  `Except TokenError T`; the `?` operator is the explicit match on the
  intermediate result.
* Rust functions take their arguments by shared reference and never mutate
  the claims maps; in the embedding they are pure functions of the maps.
* External library error payloads (ciborium, coset, ecdsa) are modelled as
  opaque wrappers around a `Nat` code; the kernel ioctl is modelled as an
  oracle function.
-/

/- Claim label constants from src/token/mod.rs. -/

def CCA_PLAT_CHALLENGE : Nat := 10
def CCA_PLAT_INSTANCE_ID : Nat := 256
def CCA_PLAT_PROFILE : Nat := 265
def CCA_PLAT_SECURITY_LIFECYCLE : Nat := 2395
def CCA_PLAT_IMPLEMENTATION_ID : Nat := 2396
def CCA_PLAT_SW_COMPONENTS : Nat := 2399
def CCA_PLAT_VERIFICATION_SERVICE : Nat := 2400
def CCA_PLAT_CONFIGURATION : Nat := 2401
def CCA_PLAT_HASH_ALGO_ID : Nat := 2402

def CCA_REALM_CHALLENGE : Nat := 10
def CCA_REALM_PROFILE : Nat := 265
def CCA_REALM_PERSONALIZATION_VALUE : Nat := 44235
def CCA_REALM_HASH_ALGO_ID : Nat := 44236
def CCA_REALM_PUB_KEY : Nat := 44237
def CCA_REALM_INITIAL_MEASUREMENT : Nat := 44238
def CCA_REALM_EXTENSIBLE_MEASUREMENTS : Nat := 44239
def CCA_REALM_PUB_KEY_HASH_ALGO_ID : Nat := 44240

def CCA_SW_COMP_TITLE : Nat := 1
def CCA_SW_COMP_MEASUREMENT_VALUE : Nat := 2
def CCA_SW_COMP_VERSION : Nat := 4
def CCA_SW_COMP_SIGNER_ID : Nat := 5
def CCA_SW_COMP_HASH_ALGORITHM : Nat := 6

def CLAIM_COUNT_REALM_TOKEN : Nat := 7
def CLAIM_COUNT_PLATFORM_TOKEN : Nat := 8
def CLAIM_COUNT_REALM_EXTENSIBLE_MEASUREMENTS : Nat := 4
def CLAIM_COUNT_SW_COMPONENT : Nat := 5
def MAX_SW_COMPONENT_COUNT : Nat := 32

/- ClaimData: the four-variant tagged union of src/token/mod.rs. -/

inductive ClaimData where
  | Bool (b : Bool)
  | Int64 (i : Int)
  | Bstr (d : List Nat)
  | Text (s : String)
  deriving DecidableEq

def ClaimData.new_bool : ClaimData := ClaimData.Bool false

def ClaimData.new_int64 : ClaimData := ClaimData.Int64 0

def ClaimData.new_bstr : ClaimData := ClaimData.Bstr []

def ClaimData.new_text : ClaimData := ClaimData.Text ""

/- Claim record: {mandatory, title, present, data}. -/

structure Claim where
  mandatory : Bool
  title : String
  present : Bool
  data : ClaimData
  deriving DecidableEq

/- Claim::new sets present to false and copies the other fields. -/
def Claim.new (mandatory : Bool) (data : ClaimData) (title : String) : Claim :=
  { mandatory := mandatory, title := title, present := false, data := data }

/- ClaimsMap = HashMap<u32, Claim>, as an association list with unique keys. -/

abbrev ClaimsMap := List (Nat × Claim)

/- HashMap::get. -/
def ClaimsMap.get : ClaimsMap → Nat → Option Claim
  | [], _ => none
  | (k, c) :: rest, key => if k = key then some c else ClaimsMap.get rest key

/- HashMap::insert: replace the value at an existing key, append otherwise. -/
def insertClaim : ClaimsMap → Nat → Claim → ClaimsMap
  | [], key, c => [(key, c)]
  | (k, c0) :: rest, key, c =>
      if k = key then (key, c) :: rest else (k, c0) :: insertClaim rest key c

/- Error types.  The payloads of the ciborium / coset / ecdsa library errors
are opaque to this crate; they are modelled as a bare code.  coset::Algorithm
has structural equality and is modelled as its integer identifier. -/

structure CiboriumError where
  code : Nat
  deriving DecidableEq

structure CosetError where
  code : Nat
  deriving DecidableEq

structure EcdsaError where
  code : Nat
  deriving DecidableEq

abbrev CosetAlgorithm := Int

inductive TokenError where
  | InvalidKey (s : String)
  | InvalidTag (s : String)
  | InvalidTokenFormat (s : String)
  | NotImplemented (s : String)
  | VerificationFailed (s : String)
  | InvalidAlgorithm (a : Option CosetAlgorithm)
  | Ciborium (e : CiboriumError)
  | Coset (e : CosetError)
  | Ecdsa (e : EcdsaError)
  | MissingMandatoryClaim (label : Nat)
  | ClaimDataMisMatchType
  deriving DecidableEq

/- The hand-written PartialEq implementation for TokenError
(src/token/mod.rs, lines 363-382). -/
def TokenError.beq : TokenError → TokenError → Bool
  | .InvalidKey s, .InvalidKey e => s = e
  | .InvalidTag s, .InvalidTag e => s = e
  | .InvalidTokenFormat s, .InvalidTokenFormat e => s = e
  | .NotImplemented s, .NotImplemented e => s = e
  | .VerificationFailed s, .VerificationFailed e => s = e
  | .InvalidAlgorithm s, .InvalidAlgorithm e => s = e
  | .Ciborium _, .Ciborium _ => true
  | .Coset _, .Coset _ => true
  | .Ecdsa _, .Ecdsa _ => true
  | .MissingMandatoryClaim s, .MissingMandatoryClaim e => s = e
  | .ClaimDataMisMatchType, .ClaimDataMisMatchType => true
  | _, _ => false

/- TokenError with the payloads of the three library-error kinds erased.
Two TokenError values are PartialEq-equal exactly when their erasures agree
(see the theorem for C7). -/
inductive TokenErrorKind where
  | InvalidKey (s : String)
  | InvalidTag (s : String)
  | InvalidTokenFormat (s : String)
  | NotImplemented (s : String)
  | VerificationFailed (s : String)
  | InvalidAlgorithm (a : Option CosetAlgorithm)
  | Ciborium
  | Coset
  | Ecdsa
  | MissingMandatoryClaim (label : Nat)
  | ClaimDataMisMatchType
  deriving DecidableEq

def TokenError.erase : TokenError → TokenErrorKind
  | .InvalidKey s => .InvalidKey s
  | .InvalidTag s => .InvalidTag s
  | .InvalidTokenFormat s => .InvalidTokenFormat s
  | .NotImplemented s => .NotImplemented s
  | .VerificationFailed s => .VerificationFailed s
  | .InvalidAlgorithm a => .InvalidAlgorithm a
  | .Ciborium _ => .Ciborium
  | .Coset _ => .Coset
  | .Ecdsa _ => .Ecdsa
  | .MissingMandatoryClaim l => .MissingMandatoryClaim l
  | .ClaimDataMisMatchType => .ClaimDataMisMatchType

/- The four TryFrom<ClaimData> implementations (src/token/mod.rs 120-174). -/

def tryFromString : ClaimData → Except TokenError String
  | .Text v => .ok v
  | _ => .error .ClaimDataMisMatchType

def tryFromBstr : ClaimData → Except TokenError (List Nat)
  | .Bstr v => .ok v
  | _ => .error .ClaimDataMisMatchType

def tryFromInt64 : ClaimData → Except TokenError Int
  | .Int64 v => .ok v
  | _ => .error .ClaimDataMisMatchType

def tryFromBool : ClaimData → Except TokenError Bool
  | .Bool b => .ok b
  | _ => .error .ClaimDataMisMatchType

/- get_claim (src/token/parser.rs 15-26), generic over the TryFrom instance.
Any conversion error is replaced by ClaimDataMisMatchType via `.or(...)`;
an absent or not-present claim yields MissingMandatoryClaim(key). -/
def get_claim {T : Type} (tf : ClaimData → Except TokenError T)
    (key : Nat) (claims : ClaimsMap) : Except TokenError T :=
  match ClaimsMap.get claims key with
  | some c =>
      if c.present then
        match tf c.data with
        | .ok v => .ok v
        | .error _ => .error .ClaimDataMisMatchType
      else .error (.MissingMandatoryClaim key)
  | none => .error (.MissingMandatoryClaim key)

/- PlatClaims and PlatClaims::from_raw_claims (src/token/parser.rs 3-43).
The fields are extracted in the source order of the struct literal; the
first failing extraction aborts with its error. -/

structure PlatClaims where
  challenge : List Nat
  verification_service : String
  profile : String
  instance_id : List Nat
  implementation_id : List Nat
  lifecycle : Int
  configuration : List Nat
  hash_algo : String
  deriving DecidableEq

def PlatClaims.from_raw_claims (claims : ClaimsMap) : Except TokenError PlatClaims :=
  match get_claim tryFromBstr CCA_PLAT_CHALLENGE claims with
  | .error e => .error e
  | .ok challenge =>
  match get_claim tryFromString CCA_PLAT_VERIFICATION_SERVICE claims with
  | .error e => .error e
  | .ok verification_service =>
  match get_claim tryFromString CCA_PLAT_PROFILE claims with
  | .error e => .error e
  | .ok profile =>
  match get_claim tryFromBstr CCA_PLAT_INSTANCE_ID claims with
  | .error e => .error e
  | .ok instance_id =>
  match get_claim tryFromBstr CCA_PLAT_IMPLEMENTATION_ID claims with
  | .error e => .error e
  | .ok implementation_id =>
  match get_claim tryFromInt64 CCA_PLAT_SECURITY_LIFECYCLE claims with
  | .error e => .error e
  | .ok lifecycle =>
  match get_claim tryFromBstr CCA_PLAT_CONFIGURATION claims with
  | .error e => .error e
  | .ok configuration =>
  match get_claim tryFromString CCA_PLAT_HASH_ALGO_ID claims with
  | .error e => .error e
  | .ok hash_algo =>
    .ok { challenge := challenge, verification_service := verification_service,
          profile := profile, instance_id := instance_id,
          implementation_id := implementation_id, lifecycle := lifecycle,
          configuration := configuration, hash_algo := hash_algo }

/- PlatSwComponent and PlatSwComponent::from_raw_claims
(src/token/parser.rs 45-69).  The hash_algo field catches every error of the
optional lookup and substitutes the platform-level hash algorithm. -/

structure PlatSwComponent where
  ty : String
  hash_algo : String
  value : List Nat
  version : String
  signer_id : List Nat
  deriving DecidableEq

def PlatSwComponent.from_raw_claims (claims : ClaimsMap) (plat_hash_algo : String) :
    Except TokenError PlatSwComponent :=
  match get_claim tryFromString CCA_SW_COMP_TITLE claims with
  | .error e => .error e
  | .ok ty =>
    let hash_algo :=
      match get_claim tryFromString CCA_SW_COMP_HASH_ALGORITHM claims with
      | .ok i => i
      | .error _ => plat_hash_algo
  match get_claim tryFromBstr CCA_SW_COMP_MEASUREMENT_VALUE claims with
  | .error e => .error e
  | .ok value =>
  match get_claim tryFromString CCA_SW_COMP_VERSION claims with
  | .error e => .error e
  | .ok version =>
  match get_claim tryFromBstr CCA_SW_COMP_SIGNER_ID claims with
  | .error e => .error e
  | .ok signer_id =>
    .ok { ty := ty, hash_algo := hash_algo, value := value,
          version := version, signer_id := signer_id }

/- RealmClaims and RealmClaims::from_raw_claims (src/token/parser.rs 71-105).
The four extensible measurements are extracted first (the loop preceding the
struct literal), then the token claims in source order; the profile lookup
ignores its error and yields an Option. -/

structure RealmClaims where
  challenge : List Nat
  profile : Option String
  personalization_value : List Nat
  hash_algo : String
  pub_key_hash_algo : String
  pub_key : List Nat
  rim : List Nat
  rems : List (List Nat)
  deriving DecidableEq

def RealmClaims.from_raw_claims (claims measurement_claims : ClaimsMap) :
    Except TokenError RealmClaims :=
  match get_claim tryFromBstr 0 measurement_claims with
  | .error e => .error e
  | .ok r0 =>
  match get_claim tryFromBstr 1 measurement_claims with
  | .error e => .error e
  | .ok r1 =>
  match get_claim tryFromBstr 2 measurement_claims with
  | .error e => .error e
  | .ok r2 =>
  match get_claim tryFromBstr 3 measurement_claims with
  | .error e => .error e
  | .ok r3 =>
  match get_claim tryFromBstr CCA_REALM_CHALLENGE claims with
  | .error e => .error e
  | .ok challenge =>
    let profile := (get_claim tryFromString CCA_REALM_PROFILE claims).toOption
  match get_claim tryFromBstr CCA_REALM_PERSONALIZATION_VALUE claims with
  | .error e => .error e
  | .ok personalization_value =>
  match get_claim tryFromString CCA_REALM_HASH_ALGO_ID claims with
  | .error e => .error e
  | .ok hash_algo =>
  match get_claim tryFromString CCA_REALM_PUB_KEY_HASH_ALGO_ID claims with
  | .error e => .error e
  | .ok pub_key_hash_algo =>
  match get_claim tryFromBstr CCA_REALM_PUB_KEY claims with
  | .error e => .error e
  | .ok pub_key =>
  match get_claim tryFromBstr CCA_REALM_INITIAL_MEASUREMENT claims with
  | .error e => .error e
  | .ok rim =>
    .ok { challenge := challenge, profile := profile,
          personalization_value := personalization_value,
          hash_algo := hash_algo, pub_key_hash_algo := pub_key_hash_algo,
          pub_key := pub_key, rim := rim, rems := [r0, r1, r2, r3] }

/- Token schema structures and their constructors (src/token/mod.rs 208-290).
cose_sign1 is an external coset value with no bearing on the claims and is
modelled as Unit.  The Rust fixed array [SwComponent; 32] is a list of
length 32; the initialization loop fills every slot identically. -/

structure SwComponent where
  present : Bool
  claims : ClaimsMap
  deriving DecidableEq

structure RealmToken where
  cose_sign1 : Unit
  token_claims : ClaimsMap
  measurement_claims : ClaimsMap
  deriving DecidableEq

structure PlatformToken where
  cose_sign1 : Unit
  token_claims : ClaimsMap
  sw_component_claims : List SwComponent
  deriving DecidableEq

def RealmToken.new : RealmToken :=
  let tc := insertClaim [] CCA_REALM_CHALLENGE
      (Claim.new true ClaimData.new_bstr "Realm challenge")
  let tc := insertClaim tc CCA_REALM_PROFILE
      (Claim.new false ClaimData.new_text "Realm profile")
  let tc := insertClaim tc CCA_REALM_PERSONALIZATION_VALUE
      (Claim.new true ClaimData.new_bstr "Realm personalization value")
  let tc := insertClaim tc CCA_REALM_HASH_ALGO_ID
      (Claim.new true ClaimData.new_text "Realm hash algo id")
  let tc := insertClaim tc CCA_REALM_PUB_KEY_HASH_ALGO_ID
      (Claim.new true ClaimData.new_text "Realm public key hash algo id")
  let tc := insertClaim tc CCA_REALM_PUB_KEY
      (Claim.new true ClaimData.new_bstr "Realm signing public key")
  let tc := insertClaim tc CCA_REALM_INITIAL_MEASUREMENT
      (Claim.new true ClaimData.new_bstr "Realm initial measurement")
  let mc := (List.range CLAIM_COUNT_REALM_EXTENSIBLE_MEASUREMENTS).foldl
      (fun m i => insertClaim m i
        (Claim.new true ClaimData.new_bstr "Realm extensible measurement")) []
  { cose_sign1 := (), token_claims := tc, measurement_claims := mc }

def swComponentInit : SwComponent :=
  let cl := insertClaim [] CCA_SW_COMP_TITLE
      (Claim.new true ClaimData.new_text "SW Type")
  let cl := insertClaim cl CCA_SW_COMP_HASH_ALGORITHM
      (Claim.new false ClaimData.new_text "Hash algorithm")
  let cl := insertClaim cl CCA_SW_COMP_MEASUREMENT_VALUE
      (Claim.new true ClaimData.new_bstr "Measurement value")
  let cl := insertClaim cl CCA_SW_COMP_VERSION
      (Claim.new false ClaimData.new_text "Version")
  let cl := insertClaim cl CCA_SW_COMP_SIGNER_ID
      (Claim.new true ClaimData.new_bstr "Signer ID")
  { present := false, claims := cl }

def PlatformToken.new : PlatformToken :=
  let tc := insertClaim [] CCA_PLAT_CHALLENGE
      (Claim.new true ClaimData.new_bstr "Challange")
  let tc := insertClaim tc CCA_PLAT_VERIFICATION_SERVICE
      (Claim.new false ClaimData.new_text "Verification service")
  let tc := insertClaim tc CCA_PLAT_PROFILE
      (Claim.new true ClaimData.new_text "Profile")
  let tc := insertClaim tc CCA_PLAT_INSTANCE_ID
      (Claim.new true ClaimData.new_bstr "Instance ID")
  let tc := insertClaim tc CCA_PLAT_IMPLEMENTATION_ID
      (Claim.new true ClaimData.new_bstr "Implementation ID")
  let tc := insertClaim tc CCA_PLAT_SECURITY_LIFECYCLE
      (Claim.new true ClaimData.new_int64 "Lifecycle")
  let tc := insertClaim tc CCA_PLAT_CONFIGURATION
      (Claim.new true ClaimData.new_bstr "Configuration")
  let tc := insertClaim tc CCA_PLAT_HASH_ALGO_ID
      (Claim.new true ClaimData.new_text "Platform hash algo")
  { cose_sign1 := (), token_claims := tc,
    sw_component_claims := List.replicate MAX_SW_COMPONENT_COUNT swComponentInit }

/- A ClaimData value is the empty or zero value of its variant. -/
def isEmptyClaimData : ClaimData → Bool
  | .Bool b => b = false
  | .Int64 i => i = 0
  | .Bstr d => d = []
  | .Text s => s = ""

/- Two claims maps agree on presence and data at every key (they may differ
in the mandatory and title metadata of their claims). -/
def sameShape (m1 m2 : ClaimsMap) : Prop :=
  ∀ k, Option.map (fun c => (c.present, c.data)) (ClaimsMap.get m1 k)
     = Option.map (fun c => (c.present, c.data)) (ClaimsMap.get m2 k)

/- The ioctl attestation-token wrapper (src/ioctl/mod.rs 37-58).
The kernel ioctl kernel::attestation_token is external; it is modelled as an
oracle taking the call index (0 for the first call, 1 for the retry), the
challenge, and the size of the token buffer handed to it, returning either
the token length together with the buffer contents it wrote, or an errno
together with the token_len field it reported (ERANGE reports the required
size there).  The device open is likewise a fallible external step. -/

structure Errno where
  code : Nat
  deriving DecidableEq

def ERANGE : Errno := { code := 34 }

inductive KernelResult where
  | ok (token_len : Nat) (buf : List Nat)
  | err (e : Errno) (token_len : Nat)

def INITIAL_TOKEN_SIZE : Nat := 64

def attestation_token (openResult : Except Errno Unit)
    (kernel : Nat → List Nat → Nat → KernelResult)
    (challenge : List Nat) : Except Errno (List Nat) :=
  match openResult with
  | .error e => .error e
  | .ok _ =>
    match kernel 0 challenge INITIAL_TOKEN_SIZE with
    | .ok token_len buf => .ok (List.take token_len buf)
    | .err e reported =>
      if e = ERANGE then
        match kernel 1 challenge reported with
        | .ok token_len buf => .ok (List.take token_len buf)
        | .err e2 _ => .error e2
      else .error e

/- Helper lemmas about get_claim and association-list lookup. -/

theorem get_claim_ok_iff {T : Type} (tf : ClaimData → Except TokenError T)
    (k : Nat) (m : ClaimsMap) (v : T) :
    get_claim tf k m = .ok v ↔
      ∃ c, ClaimsMap.get m k = some c ∧ c.present = true ∧ tf c.data = .ok v := by
  cases hg : ClaimsMap.get m k with
  | none => simp [get_claim, hg]
  | some c =>
    cases hp : c.present with
    | false => simp [get_claim, hg, hp]
    | true =>
      cases hv : tf c.data with
      | ok w => simp [get_claim, hg, hp, hv]
      | error e => simp [get_claim, hg, hp, hv]

theorem get_claim_missing_iff {T : Type} (tf : ClaimData → Except TokenError T)
    (k : Nat) (m : ClaimsMap) :
    get_claim tf k m = .error (.MissingMandatoryClaim k) ↔
      (ClaimsMap.get m k = none ∨
       ∃ c, ClaimsMap.get m k = some c ∧ c.present = false) := by
  cases hg : ClaimsMap.get m k with
  | none => simp [get_claim, hg]
  | some c =>
    cases hp : c.present with
    | false => simp [get_claim, hg, hp]
    | true =>
      cases hv : tf c.data with
      | ok w => simp [get_claim, hg, hp, hv]
      | error e => simp [get_claim, hg, hp, hv]

theorem get_claim_mismatch_iff {T : Type} (tf : ClaimData → Except TokenError T)
    (k : Nat) (m : ClaimsMap) :
    get_claim tf k m = .error .ClaimDataMisMatchType ↔
      ∃ c, ClaimsMap.get m k = some c ∧ c.present = true ∧
        ∃ e, tf c.data = .error e := by
  cases hg : ClaimsMap.get m k with
  | none => simp [get_claim, hg]
  | some c =>
    cases hp : c.present with
    | false => simp [get_claim, hg, hp]
    | true =>
      cases hv : tf c.data with
      | ok w => simp [get_claim, hg, hp, hv]
      | error e => simp [get_claim, hg, hp, hv]

theorem get_claim_congr {T : Type} (tf : ClaimData → Except TokenError T)
    (k : Nat) {m1 m2 : ClaimsMap} (hs : sameShape m1 m2) :
    get_claim tf k m1 = get_claim tf k m2 := by
  have h := hs k
  cases h1 : ClaimsMap.get m1 k <;> cases h2 : ClaimsMap.get m2 k <;>
    rw [h1, h2] at h <;> simp at h
  · simp [get_claim, h1, h2]
  · simp [get_claim, h1, h2, h.1, h.2]

theorem mem_keys_iff (m : ClaimsMap) (k : Nat) :
    (ClaimsMap.get m k).isSome = true ↔ k ∈ m.map Prod.fst := by
  induction m with
  | nil => simp [ClaimsMap.get]
  | cons p rest ih =>
    obtain ⟨k0, c⟩ := p
    by_cases h : k0 = k <;> simp [ClaimsMap.get, h, ih]
    · exact fun hk => absurd hk.symm h

/- Concrete claims maps used as witness and counterexample inputs. -/

def presentClaim (d : ClaimData) : Claim :=
  { mandatory := true, title := "", present := true, data := d }

def platChallengeOnlyMap : ClaimsMap :=
  [(CCA_PLAT_CHALLENGE, presentClaim (ClaimData.Bstr []))]

def swVersionAbsentMap : ClaimsMap :=
  [(CCA_SW_COMP_TITLE, presentClaim (ClaimData.Text "fw")),
   (CCA_SW_COMP_MEASUREMENT_VALUE, presentClaim (ClaimData.Bstr [1])),
   (CCA_SW_COMP_SIGNER_ID, presentClaim (ClaimData.Bstr [2]))]

def realmNoProfileMap : ClaimsMap :=
  [(CCA_REALM_CHALLENGE, presentClaim (ClaimData.Bstr [1])),
   (CCA_REALM_PERSONALIZATION_VALUE, presentClaim (ClaimData.Bstr [2])),
   (CCA_REALM_HASH_ALGO_ID, presentClaim (ClaimData.Text "sha-256")),
   (CCA_REALM_PUB_KEY_HASH_ALGO_ID, presentClaim (ClaimData.Text "sha-512")),
   (CCA_REALM_PUB_KEY, presentClaim (ClaimData.Bstr [3])),
   (CCA_REALM_INITIAL_MEASUREMENT, presentClaim (ClaimData.Bstr [4]))]

def realmMeasurementsMap : ClaimsMap :=
  [(0, presentClaim (ClaimData.Bstr [5])),
   (1, presentClaim (ClaimData.Bstr [6])),
   (2, presentClaim (ClaimData.Bstr [7])),
   (3, presentClaim (ClaimData.Bstr [8]))]

/-- C3: for every label, claims map, and target type among bool, i64,
Vec<u8> and String, get_claim returns MissingMandatoryClaim(key) exactly when
the key is absent or its claim has present=false, ClaimDataMisMatchType
exactly when the claim is present but its variant does not match the target
type, and the stored value (cloned) exactly when the claim is present with
the matching variant.  get_claim reads the map through a shared reference,
so in the embedding it is a pure function of the map, which it cannot
change. -/
theorem C3_get_claim_characterization (k : Nat) (m : ClaimsMap) :
    ((get_claim tryFromBool k m = .error (.MissingMandatoryClaim k) ↔
        (ClaimsMap.get m k = none ∨
         ∃ c, ClaimsMap.get m k = some c ∧ c.present = false))
      ∧ (get_claim tryFromBool k m = .error .ClaimDataMisMatchType ↔
        ∃ c, ClaimsMap.get m k = some c ∧ c.present = true ∧
          ∀ b, c.data ≠ ClaimData.Bool b)
      ∧ ∀ v, get_claim tryFromBool k m = .ok v ↔
        ∃ c, ClaimsMap.get m k = some c ∧ c.present = true ∧
          c.data = ClaimData.Bool v)
    ∧ ((get_claim tryFromInt64 k m = .error (.MissingMandatoryClaim k) ↔
        (ClaimsMap.get m k = none ∨
         ∃ c, ClaimsMap.get m k = some c ∧ c.present = false))
      ∧ (get_claim tryFromInt64 k m = .error .ClaimDataMisMatchType ↔
        ∃ c, ClaimsMap.get m k = some c ∧ c.present = true ∧
          ∀ i, c.data ≠ ClaimData.Int64 i)
      ∧ ∀ v, get_claim tryFromInt64 k m = .ok v ↔
        ∃ c, ClaimsMap.get m k = some c ∧ c.present = true ∧
          c.data = ClaimData.Int64 v)
    ∧ ((get_claim tryFromBstr k m = .error (.MissingMandatoryClaim k) ↔
        (ClaimsMap.get m k = none ∨
         ∃ c, ClaimsMap.get m k = some c ∧ c.present = false))
      ∧ (get_claim tryFromBstr k m = .error .ClaimDataMisMatchType ↔
        ∃ c, ClaimsMap.get m k = some c ∧ c.present = true ∧
          ∀ d, c.data ≠ ClaimData.Bstr d)
      ∧ ∀ v, get_claim tryFromBstr k m = .ok v ↔
        ∃ c, ClaimsMap.get m k = some c ∧ c.present = true ∧
          c.data = ClaimData.Bstr v)
    ∧ ((get_claim tryFromString k m = .error (.MissingMandatoryClaim k) ↔
        (ClaimsMap.get m k = none ∨
         ∃ c, ClaimsMap.get m k = some c ∧ c.present = false))
      ∧ (get_claim tryFromString k m = .error .ClaimDataMisMatchType ↔
        ∃ c, ClaimsMap.get m k = some c ∧ c.present = true ∧
          ∀ s, c.data ≠ ClaimData.Text s)
      ∧ ∀ v, get_claim tryFromString k m = .ok v ↔
        ∃ c, ClaimsMap.get m k = some c ∧ c.present = true ∧
          c.data = ClaimData.Text v) := by
  refine ⟨⟨get_claim_missing_iff _ _ _, ?_, ?_⟩,
          ⟨get_claim_missing_iff _ _ _, ?_, ?_⟩,
          ⟨get_claim_missing_iff _ _ _, ?_, ?_⟩,
          ⟨get_claim_missing_iff _ _ _, ?_, ?_⟩⟩ <;>
    first
    | (rw [get_claim_mismatch_iff]
       apply exists_congr; intro c
       refine and_congr_right fun _ => and_congr_right fun _ => ?_
       cases c.data <;>
         simp [tryFromBool, tryFromInt64, tryFromBstr, tryFromString])
    | (intro v
       rw [get_claim_ok_iff]
       apply exists_congr; intro c
       refine and_congr_right fun _ => and_congr_right fun _ => ?_
       cases c.data <;>
         simp [tryFromBool, tryFromInt64, tryFromBstr, tryFromString])

/-- C1 counterexample: the claim quantifies over every platform ClaimsMap in
which label 2400 is absent, but on the empty map (where 2400 is absent)
PlatClaims::from_raw_claims fails with MissingMandatoryClaim(10), not
MissingMandatoryClaim(2400), because the challenge claim is extracted
first. -/
theorem C1_counterexample_empty_map :
    ClaimsMap.get ([] : ClaimsMap) CCA_PLAT_VERIFICATION_SERVICE = none
    ∧ PlatClaims.from_raw_claims [] =
        .error (.MissingMandatoryClaim CCA_PLAT_CHALLENGE)
    ∧ TokenError.MissingMandatoryClaim CCA_PLAT_CHALLENGE ≠
        TokenError.MissingMandatoryClaim CCA_PLAT_VERIFICATION_SERVICE :=
  ⟨rfl, rfl, by decide⟩

/-- C1 (amended): the schema entry for verification_service (platform label
2400) is marked optional (mandatory=false), yet for every platform ClaimsMap
whose challenge claim (label 10, the one extracted before label 2400)
extracts successfully and in which the verification_service claim is absent
or not present, PlatClaims::from_raw_claims fails with
MissingMandatoryClaim(2400): the typed view requires it. -/
theorem C1_verification_service_required :
    Option.map Claim.mandatory
        (ClaimsMap.get PlatformToken.new.token_claims CCA_PLAT_VERIFICATION_SERVICE)
      = some false
    ∧ ∀ m : ClaimsMap,
        (∃ d, get_claim tryFromBstr CCA_PLAT_CHALLENGE m = .ok d) →
        (ClaimsMap.get m CCA_PLAT_VERIFICATION_SERVICE = none ∨
          ∃ c, ClaimsMap.get m CCA_PLAT_VERIFICATION_SERVICE = some c ∧
            c.present = false) →
        PlatClaims.from_raw_claims m =
          .error (.MissingMandatoryClaim CCA_PLAT_VERIFICATION_SERVICE) := by
  refine ⟨rfl, ?_⟩
  intro m hch habs
  obtain ⟨d, hd⟩ := hch
  have hvs : get_claim tryFromString CCA_PLAT_VERIFICATION_SERVICE m =
      .error (.MissingMandatoryClaim CCA_PLAT_VERIFICATION_SERVICE) := by
    rcases habs with h | ⟨c, hc, hp⟩
    · simp [get_claim, h]
    · simp [get_claim, hc, hp]
  unfold PlatClaims.from_raw_claims
  simp only [hd, hvs]

/-- C1 witness: a concrete platform map holding only a present challenge
claim is rejected with MissingMandatoryClaim(2400). -/
theorem C1_verification_service_required_witness :
    PlatClaims.from_raw_claims platChallengeOnlyMap =
      .error (.MissingMandatoryClaim CCA_PLAT_VERIFICATION_SERVICE) :=
  C1_verification_service_required.2 platChallengeOnlyMap ⟨[], rfl⟩ (Or.inl rfl)

/-- C2 counterexample: a sw-component map whose mandatory claims (labels 1,
2, 5) are present with correct variants but whose optional version claim
(label 4) is absent does NOT make PlatSwComponent::from_raw_claims succeed:
it fails with MissingMandatoryClaim(4). -/
theorem C2_counterexample_version_absent :
    get_claim tryFromString CCA_SW_COMP_TITLE swVersionAbsentMap = .ok "fw"
    ∧ get_claim tryFromBstr CCA_SW_COMP_MEASUREMENT_VALUE swVersionAbsentMap = .ok [1]
    ∧ get_claim tryFromBstr CCA_SW_COMP_SIGNER_ID swVersionAbsentMap = .ok [2]
    ∧ ClaimsMap.get swVersionAbsentMap CCA_SW_COMP_VERSION = none
    ∧ PlatSwComponent.from_raw_claims swVersionAbsentMap "sha-256" =
        .error (.MissingMandatoryClaim CCA_SW_COMP_VERSION) :=
  ⟨rfl, rfl, rfl, rfl, rfl⟩

/-- C2 (amended): absent optional claims do not make REALM typed extraction
fail: for every realm ClaimsMap whose mandatory claims are all present with
correct variants but whose profile claim (label 265) is absent,
RealmClaims::from_raw_claims succeeds with profile = None.  For sw
components, however, the typed view requires the version claim (label 4)
despite the schema marking it optional: when the mandatory claims (labels 1,
2, 5) are present with correct variants but version is absent,
PlatSwComponent::from_raw_claims fails with MissingMandatoryClaim(4). -/
theorem C2_optional_profile_required_version :
    (∀ (m mm : ClaimsMap) (ch pv pk rim r0 r1 r2 r3 : List Nat)
        (ha pkha : String),
      ClaimsMap.get m CCA_REALM_PROFILE = none →
      get_claim tryFromBstr 0 mm = .ok r0 →
      get_claim tryFromBstr 1 mm = .ok r1 →
      get_claim tryFromBstr 2 mm = .ok r2 →
      get_claim tryFromBstr 3 mm = .ok r3 →
      get_claim tryFromBstr CCA_REALM_CHALLENGE m = .ok ch →
      get_claim tryFromBstr CCA_REALM_PERSONALIZATION_VALUE m = .ok pv →
      get_claim tryFromString CCA_REALM_HASH_ALGO_ID m = .ok ha →
      get_claim tryFromString CCA_REALM_PUB_KEY_HASH_ALGO_ID m = .ok pkha →
      get_claim tryFromBstr CCA_REALM_PUB_KEY m = .ok pk →
      get_claim tryFromBstr CCA_REALM_INITIAL_MEASUREMENT m = .ok rim →
      RealmClaims.from_raw_claims m mm =
        .ok { challenge := ch, profile := none, personalization_value := pv,
              hash_algo := ha, pub_key_hash_algo := pkha, pub_key := pk,
              rim := rim, rems := [r0, r1, r2, r3] })
    ∧ (∀ (m : ClaimsMap) (pha ty : String) (mv sid : List Nat),
      get_claim tryFromString CCA_SW_COMP_TITLE m = .ok ty →
      get_claim tryFromBstr CCA_SW_COMP_MEASUREMENT_VALUE m = .ok mv →
      get_claim tryFromBstr CCA_SW_COMP_SIGNER_ID m = .ok sid →
      ClaimsMap.get m CCA_SW_COMP_VERSION = none →
      PlatSwComponent.from_raw_claims m pha =
        .error (.MissingMandatoryClaim CCA_SW_COMP_VERSION)) := by
  constructor
  · intro m mm ch pv pk rim r0 r1 r2 r3 ha pkha hprof h0 h1 h2 h3 hch hpv hha
      hpkha hpk hrim
    have hprof' : get_claim tryFromString CCA_REALM_PROFILE m =
        .error (.MissingMandatoryClaim CCA_REALM_PROFILE) := by
      simp [get_claim, hprof]
    unfold RealmClaims.from_raw_claims
    simp only [h0, h1, h2, h3, hch, hprof', hpv, hha, hpkha, hpk, hrim,
      Except.toOption]
  · intro m pha ty mv sid hty hmv hsid hver
    have hver' : get_claim tryFromString CCA_SW_COMP_VERSION m =
        .error (.MissingMandatoryClaim CCA_SW_COMP_VERSION) := by
      simp [get_claim, hver]
    unfold PlatSwComponent.from_raw_claims
    simp only [hty, hmv, hver']

/-- C2 witness: a concrete realm map without a profile claim parses with
profile = none, and a concrete sw-component map without a version claim is
rejected with MissingMandatoryClaim(4). -/
theorem C2_optional_profile_required_version_witness :
    RealmClaims.from_raw_claims realmNoProfileMap realmMeasurementsMap =
      .ok { challenge := [1], profile := none, personalization_value := [2],
            hash_algo := "sha-256", pub_key_hash_algo := "sha-512",
            pub_key := [3], rim := [4], rems := [[5], [6], [7], [8]] }
    ∧ PlatSwComponent.from_raw_claims swVersionAbsentMap "sha-256" =
        .error (.MissingMandatoryClaim CCA_SW_COMP_VERSION) :=
  ⟨C2_optional_profile_required_version.1 realmNoProfileMap
      realmMeasurementsMap [1] [2] [3] [4] [5] [6] [7] [8] "sha-256" "sha-512"
      rfl rfl rfl rfl rfl rfl rfl rfl rfl rfl rfl,
   C2_optional_profile_required_version.2 swVersionAbsentMap "sha-256" "fw"
      [1] [2] rfl rfl rfl rfl⟩

/-- C5: if a sw-component map lacks the hash_algorithm claim (label 6) while
the title, measurement value, version and signer id claims extract
successfully, PlatSwComponent::from_raw_claims succeeds and its hash_algo
field equals the platform-level hash algorithm passed as the second
argument. -/
theorem C5_component_hash_algo_defaults (m : ClaimsMap) (pha : String)
    (habs : ClaimsMap.get m CCA_SW_COMP_HASH_ALGORITHM = none)
    (ty ver : String) (mv sid : List Nat)
    (hty : get_claim tryFromString CCA_SW_COMP_TITLE m = .ok ty)
    (hmv : get_claim tryFromBstr CCA_SW_COMP_MEASUREMENT_VALUE m = .ok mv)
    (hver : get_claim tryFromString CCA_SW_COMP_VERSION m = .ok ver)
    (hsid : get_claim tryFromBstr CCA_SW_COMP_SIGNER_ID m = .ok sid) :
    PlatSwComponent.from_raw_claims m pha =
      .ok { ty := ty, hash_algo := pha, value := mv, version := ver,
            signer_id := sid } := by
  have h6 : get_claim tryFromString CCA_SW_COMP_HASH_ALGORITHM m =
      .error (.MissingMandatoryClaim CCA_SW_COMP_HASH_ALGORITHM) := by
    simp [get_claim, habs]
  unfold PlatSwComponent.from_raw_claims
  simp only [hty, h6, hmv, hver, hsid]

def swNoHashAlgoMap : ClaimsMap :=
  [(CCA_SW_COMP_TITLE, presentClaim (ClaimData.Text "fw")),
   (CCA_SW_COMP_MEASUREMENT_VALUE, presentClaim (ClaimData.Bstr [1])),
   (CCA_SW_COMP_VERSION, presentClaim (ClaimData.Text "1.0")),
   (CCA_SW_COMP_SIGNER_ID, presentClaim (ClaimData.Bstr [2]))]

/-- C5 witness: a concrete component without label 6 inherits the platform
hash algorithm. -/
theorem C5_component_hash_algo_defaults_witness :
    PlatSwComponent.from_raw_claims swNoHashAlgoMap "sha-384" =
      .ok { ty := "fw", hash_algo := "sha-384", value := [1],
            version := "1.0", signer_id := [2] } :=
  C5_component_hash_algo_defaults swNoHashAlgoMap "sha-384" rfl "fw" "1.0"
    [1] [2] rfl rfl rfl rfl

/-- C10: if a sw-component hash_algorithm claim (label 6) is present but
holds a non-text variant, PlatSwComponent::from_raw_claims does not fail
with ClaimDataMisMatchType: the defaulting branch catches every error of
the optional lookup, so the platform-level hash algorithm is silently
substituted and extraction succeeds (given the other claims extract). -/
theorem C10_component_hash_algo_swallows_mismatch (m : ClaimsMap)
    (pha : String) (c : Claim)
    (h6 : ClaimsMap.get m CCA_SW_COMP_HASH_ALGORITHM = some c)
    (hp : c.present = true)
    (hnt : ∀ s, c.data ≠ ClaimData.Text s)
    (ty ver : String) (mv sid : List Nat)
    (hty : get_claim tryFromString CCA_SW_COMP_TITLE m = .ok ty)
    (hmv : get_claim tryFromBstr CCA_SW_COMP_MEASUREMENT_VALUE m = .ok mv)
    (hver : get_claim tryFromString CCA_SW_COMP_VERSION m = .ok ver)
    (hsid : get_claim tryFromBstr CCA_SW_COMP_SIGNER_ID m = .ok sid) :
    PlatSwComponent.from_raw_claims m pha =
      .ok { ty := ty, hash_algo := pha, value := mv, version := ver,
            signer_id := sid } := by
  have herr : ∃ e, tryFromString c.data = .error e := by
    cases hd : c.data with
    | Text s => exact absurd hd (hnt s)
    | Bool b => exact ⟨_, rfl⟩
    | Int64 i => exact ⟨_, rfl⟩
    | Bstr d => exact ⟨_, rfl⟩
  obtain ⟨e, he⟩ := herr
  have h6' : get_claim tryFromString CCA_SW_COMP_HASH_ALGORITHM m =
      .error .ClaimDataMisMatchType := by
    simp [get_claim, h6, hp, he]
  unfold PlatSwComponent.from_raw_claims
  simp only [hty, h6', hmv, hver, hsid]

def swIntHashAlgoMap : ClaimsMap :=
  [(CCA_SW_COMP_TITLE, presentClaim (ClaimData.Text "fw")),
   (CCA_SW_COMP_HASH_ALGORITHM, presentClaim (ClaimData.Int64 7)),
   (CCA_SW_COMP_MEASUREMENT_VALUE, presentClaim (ClaimData.Bstr [1])),
   (CCA_SW_COMP_VERSION, presentClaim (ClaimData.Text "1.0")),
   (CCA_SW_COMP_SIGNER_ID, presentClaim (ClaimData.Bstr [2]))]

/-- C10 witness: a concrete component whose label-6 claim holds an Int64
still parses, with the platform hash algorithm substituted. -/
theorem C10_component_hash_algo_swallows_mismatch_witness :
    PlatSwComponent.from_raw_claims swIntHashAlgoMap "sha-256" =
      .ok { ty := "fw", hash_algo := "sha-256", value := [1],
            version := "1.0", signer_id := [2] } :=
  C10_component_hash_algo_swallows_mismatch swIntHashAlgoMap "sha-256"
    (presentClaim (ClaimData.Int64 7)) rfl rfl (fun s h => by simp [presentClaim] at h)
    "fw" "1.0" [1] [2] rfl rfl rfl rfl

/-- C4: schema initialization is exact and duplicate-free.
RealmToken::new yields token_claims with exactly the 7 realm labels, each
once, and measurement_claims with exactly 4 mandatory byte-string claims at
keys 0,1,2,3; PlatformToken::new yields token_claims with exactly the 8
platform labels, each once, and 32 sw-component slots each holding exactly
the 5 component labels, each once.  The lengths match the asserted claim
counts. -/
theorem C4_schema_init_exact :
    ((RealmToken.new.token_claims.map Prod.fst).Nodup
      ∧ ∀ k, (ClaimsMap.get RealmToken.new.token_claims k).isSome = true ↔
          k ∈ [10, 265, 44235, 44236, 44237, 44238, 44240])
    ∧ RealmToken.new.measurement_claims =
        [(0, Claim.new true ClaimData.new_bstr "Realm extensible measurement"),
         (1, Claim.new true ClaimData.new_bstr "Realm extensible measurement"),
         (2, Claim.new true ClaimData.new_bstr "Realm extensible measurement"),
         (3, Claim.new true ClaimData.new_bstr "Realm extensible measurement")]
    ∧ ((PlatformToken.new.token_claims.map Prod.fst).Nodup
      ∧ ∀ k, (ClaimsMap.get PlatformToken.new.token_claims k).isSome = true ↔
          k ∈ [10, 256, 265, 2395, 2396, 2400, 2401, 2402])
    ∧ PlatformToken.new.sw_component_claims = List.replicate 32 swComponentInit
    ∧ ((swComponentInit.claims.map Prod.fst).Nodup
      ∧ ∀ k, (ClaimsMap.get swComponentInit.claims k).isSome = true ↔
          k ∈ [1, 2, 4, 5, 6])
    ∧ RealmToken.new.token_claims.length = CLAIM_COUNT_REALM_TOKEN
    ∧ PlatformToken.new.token_claims.length = CLAIM_COUNT_PLATFORM_TOKEN
    ∧ swComponentInit.claims.length = CLAIM_COUNT_SW_COMPONENT
    ∧ RealmToken.new.measurement_claims.length =
        CLAIM_COUNT_REALM_EXTENSIBLE_MEASUREMENTS := by
  refine ⟨⟨by decide, ?_⟩, rfl, ⟨by decide, ?_⟩, rfl, ⟨by decide, ?_⟩,
          rfl, rfl, rfl, rfl⟩
  · intro k
    rw [mem_keys_iff]
    rw [show RealmToken.new.token_claims.map Prod.fst =
          [10, 265, 44235, 44236, 44240, 44237, 44238] from rfl]
    simp only [List.mem_cons, List.not_mem_nil, or_false]
    tauto
  · intro k
    rw [mem_keys_iff]
    rw [show PlatformToken.new.token_claims.map Prod.fst =
          [10, 2400, 265, 256, 2396, 2395, 2401, 2402] from rfl]
    simp only [List.mem_cons, List.not_mem_nil, or_false]
    tauto
  · intro k
    rw [mem_keys_iff]
    rw [show swComponentInit.claims.map Prod.fst = [1, 6, 2, 4, 5] from rfl]
    simp only [List.mem_cons, List.not_mem_nil, or_false]
    tauto

/-- C6: every Claim constructed during schema initialization (in
RealmToken::new and PlatformToken::new, via ClaimData::new_* and
Claim::new) has present=false and data equal to the empty or zero value of
its declared variant: Bstr holds [], Text holds "", Int64 holds 0, Bool
holds false. -/
theorem C6_schema_claims_blank :
    (RealmToken.new.token_claims.all
        fun p => !p.2.present && isEmptyClaimData p.2.data) = true
    ∧ (RealmToken.new.measurement_claims.all
        fun p => !p.2.present && isEmptyClaimData p.2.data) = true
    ∧ (PlatformToken.new.token_claims.all
        fun p => !p.2.present && isEmptyClaimData p.2.data) = true
    ∧ (PlatformToken.new.sw_component_claims.all
        fun comp => comp.claims.all
          fun p => !p.2.present && isEmptyClaimData p.2.data) = true := by
  decide

/-- C7: the hand-written PartialEq on TokenError holds exactly when both
values have the same kind and, for the kinds carrying a context string,
algorithm or label, equal carried values; the Ciborium, Coset and Ecdsa
kinds compare equal regardless of their inner library errors, and different
kinds are never equal.  This is stated as: equality coincides with equality
of the payload-erased images under TokenError.erase. -/
theorem C7_token_error_partial_eq (x y : TokenError) :
    TokenError.beq x y = true ↔ TokenError.erase x = TokenError.erase y := by
  cases x <;> cases y <;> simp [TokenError.beq, TokenError.erase]

/-- C8: the ioctl attestation_token wrapper hands the kernel a buffer of
INITIAL_TOKEN_SIZE bytes; on first-call success it returns the first
token_len bytes of the buffer; if the first call fails with ERANGE it
retries exactly once with a buffer of the size the kernel reported,
returning the retried call's token bytes on success and propagating its
error on failure; a first-call error other than ERANGE is returned
immediately with no retry. -/
theorem C8_attestation_token_retry
    (kernel : Nat → List Nat → Nat → KernelResult) (ch : List Nat) :
    (∀ len buf, kernel 0 ch INITIAL_TOKEN_SIZE = .ok len buf →
        attestation_token (.ok ()) kernel ch = .ok (List.take len buf))
    ∧ (∀ reported len buf,
        kernel 0 ch INITIAL_TOKEN_SIZE = .err ERANGE reported →
        kernel 1 ch reported = .ok len buf →
        attestation_token (.ok ()) kernel ch = .ok (List.take len buf))
    ∧ (∀ reported e2 r2,
        kernel 0 ch INITIAL_TOKEN_SIZE = .err ERANGE reported →
        kernel 1 ch reported = .err e2 r2 →
        attestation_token (.ok ()) kernel ch = .error e2)
    ∧ (∀ e reported, e ≠ ERANGE →
        kernel 0 ch INITIAL_TOKEN_SIZE = .err e reported →
        attestation_token (.ok ()) kernel ch = .error e) := by
  refine ⟨?_, ?_, ?_, ?_⟩
  · intro len buf h
    simp [attestation_token, h]
  · intro reported len buf h1 h2
    simp [attestation_token, h1, h2]
  · intro reported e2 r2 h1 h2
    simp [attestation_token, h1, h2]
  · intro e reported hne h1
    simp [attestation_token, h1, hne]

def kernelStub : Nat → List Nat → Nat → KernelResult :=
  fun idx _ _ =>
    if idx = 0 then KernelResult.err ERANGE 3 else KernelResult.ok 2 [7, 8, 9]

/-- C8 witness: with a kernel oracle that reports ERANGE with required size
3 on the first call and then succeeds with token_len 2, the wrapper returns
the first 2 bytes written on the retry. -/
theorem C8_attestation_token_retry_witness :
    attestation_token (.ok ()) kernelStub [] = .ok [7, 8] :=
  (C8_attestation_token_retry kernelStub []).2.1 3 2 [7, 8, 9] rfl rfl

/-- C9: the result of get_claim, and hence of the typed views, never depends
on the mandatory or title fields of any claim: for any two claims maps that
agree on presence and data at every key (sameShape), get_claim agrees for
every target conversion and label, and the three typed views agree; and a
key absent from the map yields MissingMandatoryClaim regardless of any
schema metadata. -/
theorem C9_metadata_independent (m1 m2 : ClaimsMap) (hs : sameShape m1 m2) :
    (∀ (T : Type) (tf : ClaimData → Except TokenError T) (k : Nat),
        get_claim tf k m1 = get_claim tf k m2)
    ∧ PlatClaims.from_raw_claims m1 = PlatClaims.from_raw_claims m2
    ∧ (∀ pha, PlatSwComponent.from_raw_claims m1 pha =
        PlatSwComponent.from_raw_claims m2 pha)
    ∧ (∀ mm1 mm2, sameShape mm1 mm2 →
        RealmClaims.from_raw_claims m1 mm1 = RealmClaims.from_raw_claims m2 mm2)
    ∧ (∀ k : Nat, ClaimsMap.get m1 k = none →
        ∀ (T : Type) (tf : ClaimData → Except TokenError T),
          get_claim tf k m1 = .error (.MissingMandatoryClaim k)) := by
  have hg : ∀ (T : Type) (tf : ClaimData → Except TokenError T) (k : Nat),
      get_claim tf k m1 = get_claim tf k m2 :=
    fun T tf k => get_claim_congr tf k hs
  refine ⟨hg, ?_, ?_, ?_, ?_⟩
  · unfold PlatClaims.from_raw_claims
    simp only [hg]
  · intro pha
    unfold PlatSwComponent.from_raw_claims
    simp only [hg]
  · intro mm1 mm2 hms
    have hgm : ∀ (T : Type) (tf : ClaimData → Except TokenError T) (k : Nat),
        get_claim tf k mm1 = get_claim tf k mm2 :=
      fun T tf k => get_claim_congr tf k hms
    unfold RealmClaims.from_raw_claims
    simp only [hg, hgm]
  · intro k hk T tf
    simp [get_claim, hk]

def titledMap1 : ClaimsMap :=
  [(CCA_PLAT_CHALLENGE,
    { mandatory := true, title := "Challange", present := true,
      data := ClaimData.Bstr [9] })]

def titledMap2 : ClaimsMap :=
  [(CCA_PLAT_CHALLENGE,
    { mandatory := false, title := "other", present := true,
      data := ClaimData.Bstr [9] })]

/-- C9 witness: two concrete maps that differ only in the mandatory flag and
title of their single claim produce identical typed-extraction results. -/
theorem C9_metadata_independent_witness :
    PlatClaims.from_raw_claims titledMap1 = PlatClaims.from_raw_claims titledMap2 :=
  (C9_metadata_independent titledMap1 titledMap2 (by
      intro k
      by_cases h : CCA_PLAT_CHALLENGE = k <;>
        simp [ClaimsMap.get, titledMap1, titledMap2, h])).2.1
